import Mathlib

/-!
Verification of the attestation-validation gate
(`beacon_chain/validation/src/attestation_validation.rs`).

The validation entry point `validate_attestation` is embedded shallowly:
machine integers (`u64`, `u16`, `u8`, `usize`) become `Nat` — Rust's
`saturating_sub` on unsigned integers coincides with `Nat` truncated
subtraction, and `u64::from(cycle_length : u8).saturating_add(1)` never
saturates because `cycle_length ≤ 255 < 2^64 - 1` — and the external
collaborators (parent-hash resolver, message builder, signature verifier,
block store, attester map) become explicit function parameters returning
`Except`/`Option` exactly as their Rust interfaces do.  The `?` operator on
a collaborator call becomes an explicit `match` that applies the
corresponding `From` conversion to the error, as Rust's `?` desugaring does.
-/

/-- 256-bit hash.  Only compared for identity and passed to collaborators,
so an abstract carrier suffices. -/
abbrev Hash256 := Nat

/-- An aggregate signature.  Only passed to the signature verifier, so an
abstract carrier suffices. -/
abbrev AggregateSignature := Nat

/-- The attester bitfield, observed by `validate_attestation` only through
`num_bytes()` (byte length) and `len()` (logical bit length). -/
structure Bitfield where
  num_bytes : Nat
  len : Nat
  deriving DecidableEq, Repr

/-- `AttestationRecord` from `types`: the input vote being validated. -/
structure AttestationRecord where
  slot : Nat
  shard_id : Nat
  justified_slot : Nat
  justified_block_hash : Hash256
  oblique_parent_hashes : List Hash256
  attester_bitfield : Bitfield
  aggregate_sig : AggregateSignature
  shard_block_hash : Hash256

/-- `AttesterMap`: maps `(slot, shard_id)` to the ordered committee of
validator indices; exact-key lookup, absence is observable. -/
abbrev AttesterMap := Nat × Nat → Option (List Nat)

/-- `ParentHashesError` from `attestation_parent_hashes`. -/
inductive ParentHashesError where
  | BadCurrentHashes
  | BadObliqueHashes
  | SlotTooLow
  | SlotTooHigh
  | IntWrapping
  deriving DecidableEq, Repr

/-- `DBError` from `db`: carries an opaque message string. -/
structure DBError where
  message : String
  deriving DecidableEq, Repr

/-- `SignatureVerificationError` from `signature_verification`. -/
inductive SignatureVerificationError where
  | BadValidatorIndex
  | PublicKeyCorrupt
  | NoPublicKeyForValidator
  | DBError (s : String)
  deriving DecidableEq, Repr

/-- `AttestationValidationError`: the flat error enum of the core. -/
inductive AttestationValidationError where
  | SlotTooHigh
  | SlotTooLow
  | JustifiedSlotIncorrect
  | UnknownJustifiedBlock
  | TooManyObliqueHashes
  | BadCurrentHashes
  | BadObliqueHashes
  | BadAttesterMap
  | IntWrapping
  | PublicKeyCorrupt
  | NoPublicKeyForValidator
  | BadBitfieldLength
  | InvalidBitfield
  | InvalidBitfieldEndBits
  | NoSignatures
  | NonZeroTrailingBits
  | BadAggregateSignature
  | DBError (message : String)
  deriving DecidableEq, Repr

/-- `impl From<ParentHashesError> for AttestationValidationError`. -/
def fromParentHashesError : ParentHashesError → AttestationValidationError
  | ParentHashesError.BadCurrentHashes => AttestationValidationError.BadCurrentHashes
  | ParentHashesError.BadObliqueHashes => AttestationValidationError.BadObliqueHashes
  | ParentHashesError.SlotTooLow => AttestationValidationError.SlotTooLow
  | ParentHashesError.SlotTooHigh => AttestationValidationError.SlotTooHigh
  | ParentHashesError.IntWrapping => AttestationValidationError.IntWrapping

/-- `impl From<DBError> for AttestationValidationError`. -/
def fromDBError : DBError → AttestationValidationError
  | e => AttestationValidationError.DBError e.message

/-- `impl From<SignatureVerificationError> for AttestationValidationError`. -/
def fromSignatureVerificationError :
    SignatureVerificationError → AttestationValidationError
  | SignatureVerificationError.BadValidatorIndex =>
      AttestationValidationError.BadAttesterMap
  | SignatureVerificationError.PublicKeyCorrupt =>
      AttestationValidationError.PublicKeyCorrupt
  | SignatureVerificationError.NoPublicKeyForValidator =>
      AttestationValidationError.NoPublicKeyForValidator
  | SignatureVerificationError.DBError s => AttestationValidationError.DBError s

/-- The external collaborators consumed by `validate_attestation`,
specified only by interface: the parent-hash resolver
`attestation_parent_hashes(cycle_length, block_slot, attestation_slot,
parent_hashes, oblique_parent_hashes)`, the message builder
`generate_signed_message(slot, parent_hashes, shard_id, shard_block_hash,
justified_slot)` (infallible), and the signature verifier
`verify_aggregate_signature_for_indices(message, aggregate_sig,
attestation_indices, attester_bitfield)` — the validator store read by the
verifier is folded into the verifier oracle itself. -/
structure Collaborators where
  attestation_parent_hashes :
    Nat → Nat → Nat → List Hash256 → List Hash256 →
      Except ParentHashesError (List Hash256)
  generate_signed_message :
    Nat → List Hash256 → Nat → Hash256 → Nat → List Nat
  verify_aggregate_signature_for_indices :
    List Nat → AggregateSignature → List Nat → Bitfield →
      Except SignatureVerificationError (Option (Finset Nat))

/-- `AttestationValidationContext`: the read-only chain-state snapshot.
`cycle_length` is a `u8` in the source (so at most `255`); the block store
is represented by its one consumed capability `block_exists`. -/
structure AttestationValidationContext where
  block_slot : Nat
  cycle_length : Nat
  last_justified_slot : Nat
  parent_hashes : List Hash256
  block_exists : Hash256 → Except DBError Bool
  attester_map : AttesterMap

/-- `bytes_for_bits` helper: `(bits.saturating_sub(1) / 8) + 1`. -/
def bytes_for_bits (bits : Nat) : Nat :=
  (bits - 1) / 8 + 1

/-- `AttestationValidationContext::validate_attestation`, transcribed
check by check from the source.  Rust's `?` on the store lookup, the
parent-hash resolver and the signature verifier is rendered as an explicit
match applying the corresponding `From` conversion on the error branch. -/
def validate_attestation (ctx : AttestationValidationContext)
    (ext : Collaborators) (a : AttestationRecord) :
    Except AttestationValidationError (Finset Nat) :=
  if a.slot > ctx.block_slot then
    Except.error AttestationValidationError.SlotTooHigh
  else if a.slot < ctx.block_slot - (ctx.cycle_length + 1) then
    Except.error AttestationValidationError.SlotTooLow
  else if a.justified_slot ≠ ctx.last_justified_slot then
    Except.error AttestationValidationError.JustifiedSlotIncorrect
  else if a.oblique_parent_hashes.length > ctx.cycle_length then
    Except.error AttestationValidationError.TooManyObliqueHashes
  else
    match ctx.attester_map (a.slot, a.shard_id) with
    | none => Except.error AttestationValidationError.BadAttesterMap
    | some attestation_indices =>
      if a.attester_bitfield.num_bytes ≠ bytes_for_bits attestation_indices.length then
        Except.error AttestationValidationError.BadBitfieldLength
      else if a.attester_bitfield.len > attestation_indices.length then
        Except.error AttestationValidationError.InvalidBitfieldEndBits
      else
        match ctx.block_exists a.justified_block_hash with
        | Except.error e => Except.error (fromDBError e)
        | Except.ok false =>
            Except.error AttestationValidationError.UnknownJustifiedBlock
        | Except.ok true =>
          match ext.attestation_parent_hashes ctx.cycle_length ctx.block_slot
              a.slot ctx.parent_hashes a.oblique_parent_hashes with
          | Except.error e => Except.error (fromParentHashesError e)
          | Except.ok parent_hashes =>
            let signed_message := ext.generate_signed_message a.slot
              parent_hashes a.shard_id a.shard_block_hash a.justified_slot
            match ext.verify_aggregate_signature_for_indices signed_message
                a.aggregate_sig attestation_indices a.attester_bitfield with
            | Except.error e =>
                Except.error (fromSignatureVerificationError e)
            | Except.ok none =>
                Except.error AttestationValidationError.BadAggregateSignature
            | Except.ok (some hashmap) => Except.ok hashmap

/-! ### Concrete fixtures used by witnesses and counterexamples -/

/-- A collaborator bundle whose oracles always succeed: the parent-hash
resolver returns an empty window, the verifier confirms the empty voter
set. -/
def okCollab : Collaborators where
  attestation_parent_hashes := fun _ _ _ _ _ => Except.ok []
  generate_signed_message := fun _ _ _ _ _ => []
  verify_aggregate_signature_for_indices := fun _ _ _ _ =>
    Except.ok (some ∅)

/-- A context with block slot 10, cycle length 8, last justified slot 5,
every block known to the store, and committee `[3, 7, 9]` for every
slot/shard pair. -/
def sampleCtx : AttestationValidationContext where
  block_slot := 10
  cycle_length := 8
  last_justified_slot := 5
  parent_hashes := []
  block_exists := fun _ => Except.ok true
  attester_map := fun _ => some [3, 7, 9]

/-- A record whose slot (11) exceeds `sampleCtx`'s block slot (10). -/
def highSlotRecord : AttestationRecord where
  slot := 11
  shard_id := 0
  justified_slot := 5
  justified_block_hash := 0
  oblique_parent_hashes := []
  attester_bitfield := { num_bytes := 1, len := 3 }
  aggregate_sig := 0
  shard_block_hash := 0

/-- A context with a large block slot (100) so that the stale-slot lower
bound `100 - (8 + 1) = 91` is positive. -/
def lateCtx : AttestationValidationContext where
  block_slot := 100
  cycle_length := 8
  last_justified_slot := 5
  parent_hashes := []
  block_exists := fun _ => Except.ok true
  attester_map := fun _ => some [3, 7, 9]

/-- A record whose slot (90) is below `lateCtx`'s stale bound (91). -/
def lowSlotRecord : AttestationRecord where
  slot := 90
  shard_id := 0
  justified_slot := 5
  justified_block_hash := 0
  oblique_parent_hashes := []
  attester_bitfield := { num_bytes := 1, len := 3 }
  aggregate_sig := 0
  shard_block_hash := 0

/-! ### Claims about the slot-window checks -/

/-- Claim C1: for every attestation record and every context, if
`record.slot > context.block_slot` then `validate_attestation` returns
`Err(SlotTooHigh)`, regardless of all other record fields and of the
contents of the attester map and stores. -/
theorem validate_attestation_slot_too_high
    (ctx : AttestationValidationContext) (ext : Collaborators)
    (a : AttestationRecord) (h : a.slot > ctx.block_slot) :
    validate_attestation ctx ext a =
      Except.error AttestationValidationError.SlotTooHigh := by
  unfold validate_attestation
  rw [if_pos h]

/-- Witness for C1: `highSlotRecord` (slot 11) against `sampleCtx`
(block slot 10) is rejected with `SlotTooHigh`. -/
theorem validate_attestation_slot_too_high_witness :
    highSlotRecord.slot > sampleCtx.block_slot ∧
      validate_attestation sampleCtx okCollab highSlotRecord =
        Except.error AttestationValidationError.SlotTooHigh :=
  ⟨by decide,
    validate_attestation_slot_too_high sampleCtx okCollab highSlotRecord
      (by decide)⟩

/-- Claim C2: for every record and context, if
`record.slot < block_slot - (cycle_length + 1)` computed with saturating
subtraction (`Nat` subtraction is exactly `u64::saturating_sub`, so the
bound is 0 when `block_slot < cycle_length + 1`), then
`validate_attestation` returns `Err(SlotTooLow)`, regardless of all other
record fields. -/
theorem validate_attestation_slot_too_low
    (ctx : AttestationValidationContext) (ext : Collaborators)
    (a : AttestationRecord)
    (h : a.slot < ctx.block_slot - (ctx.cycle_length + 1)) :
    validate_attestation ctx ext a =
      Except.error AttestationValidationError.SlotTooLow := by
  have hhigh : ¬ a.slot > ctx.block_slot := by omega
  unfold validate_attestation
  rw [if_neg hhigh, if_pos h]

/-- Witness for C2: `lowSlotRecord` (slot 90) against `lateCtx`
(block slot 100, cycle length 8, stale bound 91) is rejected with
`SlotTooLow`. -/
theorem validate_attestation_slot_too_low_witness :
    lowSlotRecord.slot < lateCtx.block_slot - (lateCtx.cycle_length + 1) ∧
      validate_attestation lateCtx okCollab lowSlotRecord =
        Except.error AttestationValidationError.SlotTooLow :=
  ⟨by decide,
    validate_attestation_slot_too_low lateCtx okCollab lowSlotRecord
      (by decide)⟩

/-- A record carrying nine oblique parent hashes, one more than
`sampleCtx`'s cycle length of eight. -/
def obliqueRecord : AttestationRecord where
  slot := 5
  shard_id := 0
  justified_slot := 5
  justified_block_hash := 0
  oblique_parent_hashes := [1, 2, 3, 4, 5, 6, 7, 8, 9]
  attester_bitfield := { num_bytes := 1, len := 3 }
  aggregate_sig := 0
  shard_block_hash := 0

/-- Claim C3: the checks of `validate_attestation` run in the fixed order
slot-upper-bound, slot-lower-bound, justified-slot, oblique-hash-count,
committee lookup, bitfield byte-length, bitfield logical-length,
justified-block existence, and the first violated check's error is
returned.  Each conjunct says: if every earlier check passes and check k
fails, the result is check k's error — for every attester map, store and
collaborator bundle, so in particular `JustifiedSlotIncorrect` precedes
committee lookup and `TooManyObliqueHashes` precedes any store access. -/
theorem validate_attestation_check_order
    (ctx : AttestationValidationContext) (ext : Collaborators)
    (a : AttestationRecord) :
    (a.slot > ctx.block_slot →
      validate_attestation ctx ext a =
        Except.error AttestationValidationError.SlotTooHigh)
    ∧ (a.slot ≤ ctx.block_slot →
      a.slot < ctx.block_slot - (ctx.cycle_length + 1) →
      validate_attestation ctx ext a =
        Except.error AttestationValidationError.SlotTooLow)
    ∧ (a.slot ≤ ctx.block_slot →
      ctx.block_slot - (ctx.cycle_length + 1) ≤ a.slot →
      a.justified_slot ≠ ctx.last_justified_slot →
      validate_attestation ctx ext a =
        Except.error AttestationValidationError.JustifiedSlotIncorrect)
    ∧ (a.slot ≤ ctx.block_slot →
      ctx.block_slot - (ctx.cycle_length + 1) ≤ a.slot →
      a.justified_slot = ctx.last_justified_slot →
      a.oblique_parent_hashes.length > ctx.cycle_length →
      validate_attestation ctx ext a =
        Except.error AttestationValidationError.TooManyObliqueHashes)
    ∧ (a.slot ≤ ctx.block_slot →
      ctx.block_slot - (ctx.cycle_length + 1) ≤ a.slot →
      a.justified_slot = ctx.last_justified_slot →
      a.oblique_parent_hashes.length ≤ ctx.cycle_length →
      ctx.attester_map (a.slot, a.shard_id) = none →
      validate_attestation ctx ext a =
        Except.error AttestationValidationError.BadAttesterMap)
    ∧ (∀ ind : List Nat, a.slot ≤ ctx.block_slot →
      ctx.block_slot - (ctx.cycle_length + 1) ≤ a.slot →
      a.justified_slot = ctx.last_justified_slot →
      a.oblique_parent_hashes.length ≤ ctx.cycle_length →
      ctx.attester_map (a.slot, a.shard_id) = some ind →
      a.attester_bitfield.num_bytes ≠ bytes_for_bits ind.length →
      validate_attestation ctx ext a =
        Except.error AttestationValidationError.BadBitfieldLength)
    ∧ (∀ ind : List Nat, a.slot ≤ ctx.block_slot →
      ctx.block_slot - (ctx.cycle_length + 1) ≤ a.slot →
      a.justified_slot = ctx.last_justified_slot →
      a.oblique_parent_hashes.length ≤ ctx.cycle_length →
      ctx.attester_map (a.slot, a.shard_id) = some ind →
      a.attester_bitfield.num_bytes = bytes_for_bits ind.length →
      a.attester_bitfield.len > ind.length →
      validate_attestation ctx ext a =
        Except.error AttestationValidationError.InvalidBitfieldEndBits)
    ∧ (∀ ind : List Nat, a.slot ≤ ctx.block_slot →
      ctx.block_slot - (ctx.cycle_length + 1) ≤ a.slot →
      a.justified_slot = ctx.last_justified_slot →
      a.oblique_parent_hashes.length ≤ ctx.cycle_length →
      ctx.attester_map (a.slot, a.shard_id) = some ind →
      a.attester_bitfield.num_bytes = bytes_for_bits ind.length →
      a.attester_bitfield.len ≤ ind.length →
      ctx.block_exists a.justified_block_hash = Except.ok false →
      validate_attestation ctx ext a =
        Except.error AttestationValidationError.UnknownJustifiedBlock) := by
  refine ⟨?_, ?_, ?_, ?_, ?_, ?_, ?_, ?_⟩
  · intro h1
    unfold validate_attestation
    rw [if_pos h1]
  · intro h1 h2
    unfold validate_attestation
    rw [if_neg (by omega : ¬ a.slot > ctx.block_slot), if_pos h2]
  · intro h1 h2 h3
    unfold validate_attestation
    rw [if_neg (by omega : ¬ a.slot > ctx.block_slot),
      if_neg (by omega : ¬ a.slot < ctx.block_slot - (ctx.cycle_length + 1)),
      if_pos h3]
  · intro h1 h2 h3 h4
    unfold validate_attestation
    rw [if_neg (by omega : ¬ a.slot > ctx.block_slot),
      if_neg (by omega : ¬ a.slot < ctx.block_slot - (ctx.cycle_length + 1)),
      if_neg (not_not_intro h3), if_pos h4]
  · intro h1 h2 h3 h4 h5
    unfold validate_attestation
    rw [if_neg (by omega : ¬ a.slot > ctx.block_slot),
      if_neg (by omega : ¬ a.slot < ctx.block_slot - (ctx.cycle_length + 1)),
      if_neg (not_not_intro h3),
      if_neg (by omega : ¬ a.oblique_parent_hashes.length > ctx.cycle_length),
      h5]
  · intro ind h1 h2 h3 h4 h5 h6
    unfold validate_attestation
    rw [if_neg (by omega : ¬ a.slot > ctx.block_slot),
      if_neg (by omega : ¬ a.slot < ctx.block_slot - (ctx.cycle_length + 1)),
      if_neg (not_not_intro h3),
      if_neg (by omega : ¬ a.oblique_parent_hashes.length > ctx.cycle_length),
      h5]
    simp only [if_pos h6]
  · intro ind h1 h2 h3 h4 h5 h6 h7
    unfold validate_attestation
    rw [if_neg (by omega : ¬ a.slot > ctx.block_slot),
      if_neg (by omega : ¬ a.slot < ctx.block_slot - (ctx.cycle_length + 1)),
      if_neg (not_not_intro h3),
      if_neg (by omega : ¬ a.oblique_parent_hashes.length > ctx.cycle_length),
      h5]
    simp only [if_neg (not_not_intro h6), if_pos h7]
  · intro ind h1 h2 h3 h4 h5 h6 h7 h8
    unfold validate_attestation
    rw [if_neg (by omega : ¬ a.slot > ctx.block_slot),
      if_neg (by omega : ¬ a.slot < ctx.block_slot - (ctx.cycle_length + 1)),
      if_neg (not_not_intro h3),
      if_neg (by omega : ¬ a.oblique_parent_hashes.length > ctx.cycle_length),
      h5]
    simp only [if_neg (not_not_intro h6),
      if_neg (by omega : ¬ a.attester_bitfield.len > ind.length), h8]

/-- Witness for C3: `obliqueRecord` carries nine oblique hashes against
`sampleCtx`'s cycle length of eight and is rejected with
`TooManyObliqueHashes`. -/
theorem validate_attestation_check_order_witness :
    validate_attestation sampleCtx okCollab obliqueRecord =
      Except.error AttestationValidationError.TooManyObliqueHashes :=
  (validate_attestation_check_order sampleCtx okCollab obliqueRecord).2.2.2.1
    (by decide) (by decide) (by decide) (by decide)

/-- Helper: once the two slot bounds, the justified-slot check and the
oblique-hash bound pass and the committee lookup returns `ind`,
`validate_attestation` reduces to the bitfield checks and the remaining
pipeline over `ind`. -/
theorem validate_attestation_with_committee
    (ctx : AttestationValidationContext) (ext : Collaborators)
    (a : AttestationRecord) (ind : List Nat)
    (h1 : a.slot ≤ ctx.block_slot)
    (h2 : ctx.block_slot - (ctx.cycle_length + 1) ≤ a.slot)
    (h3 : a.justified_slot = ctx.last_justified_slot)
    (h4 : a.oblique_parent_hashes.length ≤ ctx.cycle_length)
    (h5 : ctx.attester_map (a.slot, a.shard_id) = some ind) :
    validate_attestation ctx ext a =
      (if a.attester_bitfield.num_bytes ≠ bytes_for_bits ind.length then
        Except.error AttestationValidationError.BadBitfieldLength
      else if a.attester_bitfield.len > ind.length then
        Except.error AttestationValidationError.InvalidBitfieldEndBits
      else
        match ctx.block_exists a.justified_block_hash with
        | Except.error e => Except.error (fromDBError e)
        | Except.ok false =>
            Except.error AttestationValidationError.UnknownJustifiedBlock
        | Except.ok true =>
          match ext.attestation_parent_hashes ctx.cycle_length ctx.block_slot
              a.slot ctx.parent_hashes a.oblique_parent_hashes with
          | Except.error e => Except.error (fromParentHashesError e)
          | Except.ok parent_hashes =>
            match ext.verify_aggregate_signature_for_indices
                (ext.generate_signed_message a.slot parent_hashes a.shard_id
                  a.shard_block_hash a.justified_slot)
                a.aggregate_sig ind a.attester_bitfield with
            | Except.error e =>
                Except.error (fromSignatureVerificationError e)
            | Except.ok none =>
                Except.error AttestationValidationError.BadAggregateSignature
            | Except.ok (some hashmap) => Except.ok hashmap) := by
  unfold validate_attestation
  rw [if_neg (by omega : ¬ a.slot > ctx.block_slot),
    if_neg (by omega : ¬ a.slot < ctx.block_slot - (ctx.cycle_length + 1)),
    if_neg (not_not_intro h3),
    if_neg (by omega : ¬ a.oblique_parent_hashes.length > ctx.cycle_length),
    h5]

/-- Helper: `bytes_for_bits n` is `⌈n / 8⌉` for every `n ≥ 1`. -/
theorem bytes_for_bits_eq_ceil (n : Nat) (h : 1 ≤ n) :
    bytes_for_bits n = (n + 7) / 8 := by
  unfold bytes_for_bits
  omega

/-- A context whose attester map returns the empty committee for every
slot/shard pair. -/
def emptyCommitteeCtx : AttestationValidationContext where
  block_slot := 10
  cycle_length := 8
  last_justified_slot := 5
  parent_hashes := []
  block_exists := fun _ => Except.ok true
  attester_map := fun _ => some []

/-- A record with a zero-byte, zero-bit bitfield. -/
def zeroBitfieldRecord : AttestationRecord where
  slot := 5
  shard_id := 0
  justified_slot := 5
  justified_block_hash := 0
  oblique_parent_hashes := []
  attester_bitfield := { num_bytes := 0, len := 0 }
  aggregate_sig := 0
  shard_block_hash := 0

/-- Counterexample to C4 as stated: with an empty committee (size 0) and a
zero-byte bitfield, the byte length (0) equals `⌈0 / 8⌉ = 0`, yet
`validate_attestation` still returns `BadBitfieldLength`, because the code
compares against `bytes_for_bits 0 = 1`, not against `⌈0 / 8⌉`.  So the
claimed equivalence fails at committee size 0. -/
theorem validate_attestation_bad_bitfield_length_cex :
    emptyCommitteeCtx.attester_map
        (zeroBitfieldRecord.slot, zeroBitfieldRecord.shard_id) = some [] ∧
    zeroBitfieldRecord.attester_bitfield.num_bytes =
      (([] : List Nat).length + 7) / 8 ∧
    validate_attestation emptyCommitteeCtx okCollab zeroBitfieldRecord =
      Except.error AttestationValidationError.BadBitfieldLength := by
  refine ⟨rfl, rfl, ?_⟩
  rfl

/-- Claim C4, amended to committee sizes `n ≥ 1` (for `n = 0` the code
requires 1 byte, not `⌈0 / 8⌉ = 0`; see the counterexample): for every
committee of size `n ≥ 1` and every record reaching the bitfield
byte-length check, `validate_attestation` returns `Err(BadBitfieldLength)`
if and only if the bitfield's byte length differs from `⌈n / 8⌉`. -/
theorem validate_attestation_bad_bitfield_length_iff
    (ctx : AttestationValidationContext) (ext : Collaborators)
    (a : AttestationRecord) (ind : List Nat)
    (h1 : a.slot ≤ ctx.block_slot)
    (h2 : ctx.block_slot - (ctx.cycle_length + 1) ≤ a.slot)
    (h3 : a.justified_slot = ctx.last_justified_slot)
    (h4 : a.oblique_parent_hashes.length ≤ ctx.cycle_length)
    (h5 : ctx.attester_map (a.slot, a.shard_id) = some ind)
    (hn : 1 ≤ ind.length) :
    (validate_attestation ctx ext a =
      Except.error AttestationValidationError.BadBitfieldLength)
    ↔ a.attester_bitfield.num_bytes ≠ (ind.length + 7) / 8 := by
  have hceil := bytes_for_bits_eq_ceil ind.length hn
  rw [validate_attestation_with_committee ctx ext a ind h1 h2 h3 h4 h5]
  by_cases hbyte : a.attester_bitfield.num_bytes = bytes_for_bits ind.length
  · rw [if_neg (not_not_intro hbyte)]
    constructor
    · intro hres
      exfalso
      split at hres
      · exact AttestationValidationError.noConfusion (Except.error.inj hres)
      · split at hres
        · rename_i e _
          exact AttestationValidationError.noConfusion (Except.error.inj hres)
        · exact AttestationValidationError.noConfusion (Except.error.inj hres)
        · split at hres
          · rename_i e heq
            clear heq
            cases e <;>
              exact AttestationValidationError.noConfusion
                (Except.error.inj hres)
          · split at hres
            · rename_i e heq
              clear heq
              cases e <;>
                exact AttestationValidationError.noConfusion
                  (Except.error.inj hres)
            · exact AttestationValidationError.noConfusion
                (Except.error.inj hres)
            · exact Except.noConfusion hres
    · intro hne
      exact absurd (hbyte.trans hceil) hne
  · rw [if_pos hbyte]
    constructor
    · intro _
      rw [← hceil]
      exact hbyte
    · intro _
      rfl

/-- A context whose attester map returns a nine-member committee for every
slot/shard pair. -/
def nineCommitteeCtx : AttestationValidationContext where
  block_slot := 10
  cycle_length := 8
  last_justified_slot := 5
  parent_hashes := []
  block_exists := fun _ => Except.ok true
  attester_map := fun _ => some [0, 1, 2, 3, 4, 5, 6, 7, 8]

/-- A record with a one-byte bitfield, too short for a nine-member
committee. -/
def oneByteRecord : AttestationRecord where
  slot := 5
  shard_id := 0
  justified_slot := 5
  justified_block_hash := 0
  oblique_parent_hashes := []
  attester_bitfield := { num_bytes := 1, len := 8 }
  aggregate_sig := 0
  shard_block_hash := 0

/-- Witness for the amended C4: a nine-member committee requires a 2-byte
bitfield, so `oneByteRecord`'s 1-byte bitfield is rejected with
`BadBitfieldLength`. -/
theorem validate_attestation_bad_bitfield_length_iff_witness :
    validate_attestation nineCommitteeCtx okCollab oneByteRecord =
      Except.error AttestationValidationError.BadBitfieldLength :=
  (validate_attestation_bad_bitfield_length_iff nineCommitteeCtx okCollab
    oneByteRecord [0, 1, 2, 3, 4, 5, 6, 7, 8] (by decide) (by decide)
    (by decide) (by decide) rfl (by decide)).mpr (by decide)

/-- Claim C5: for every record that passes all earlier checks including
the byte-length check, if the bitfield's logical bit length exceeds the
committee size then `validate_attestation` returns
`Err(InvalidBitfieldEndBits)`. -/
theorem validate_attestation_invalid_end_bits
    (ctx : AttestationValidationContext) (ext : Collaborators)
    (a : AttestationRecord) (ind : List Nat)
    (h1 : a.slot ≤ ctx.block_slot)
    (h2 : ctx.block_slot - (ctx.cycle_length + 1) ≤ a.slot)
    (h3 : a.justified_slot = ctx.last_justified_slot)
    (h4 : a.oblique_parent_hashes.length ≤ ctx.cycle_length)
    (h5 : ctx.attester_map (a.slot, a.shard_id) = some ind)
    (h6 : a.attester_bitfield.num_bytes = bytes_for_bits ind.length)
    (h7 : a.attester_bitfield.len > ind.length) :
    validate_attestation ctx ext a =
      Except.error AttestationValidationError.InvalidBitfieldEndBits := by
  rw [validate_attestation_with_committee ctx ext a ind h1 h2 h3 h4 h5]
  rw [if_neg (not_not_intro h6), if_pos h7]

/-- A record whose one-byte bitfield declares four logical bits, one more
than `sampleCtx`'s three-member committee. -/
def longBitfieldRecord : AttestationRecord where
  slot := 5
  shard_id := 0
  justified_slot := 5
  justified_block_hash := 0
  oblique_parent_hashes := []
  attester_bitfield := { num_bytes := 1, len := 4 }
  aggregate_sig := 0
  shard_block_hash := 0

/-- Witness for C5: `longBitfieldRecord` has a bitfield of the right byte
length (1) for the three-member committee but logical length 4 > 3, and is
rejected with `InvalidBitfieldEndBits`. -/
theorem validate_attestation_invalid_end_bits_witness :
    validate_attestation sampleCtx okCollab longBitfieldRecord =
      Except.error AttestationValidationError.InvalidBitfieldEndBits :=
  validate_attestation_invalid_end_bits sampleCtx okCollab
    longBitfieldRecord [3, 7, 9] (by decide) (by decide) (by decide)
    (by decide) rfl (by decide) (by decide)

/-- Claim C6: when every earlier check passes (slot bounds, justified
slot, oblique count, committee lookup, both bitfield checks, justified
block known, parent hashes resolved), `validate_attestation` returns
`Err(BadAggregateSignature)` exactly when the signature verifier returns
`None`, and returns `Ok(s)` exactly when the verifier returns `Some(s)` —
including `Ok` of the empty set — so verification failure (absence) and
zero confirmed voters (empty set) are never conflated. -/
theorem validate_attestation_signature_outcome
    (ctx : AttestationValidationContext) (ext : Collaborators)
    (a : AttestationRecord) (ind : List Nat) (ph : List Hash256)
    (h1 : a.slot ≤ ctx.block_slot)
    (h2 : ctx.block_slot - (ctx.cycle_length + 1) ≤ a.slot)
    (h3 : a.justified_slot = ctx.last_justified_slot)
    (h4 : a.oblique_parent_hashes.length ≤ ctx.cycle_length)
    (h5 : ctx.attester_map (a.slot, a.shard_id) = some ind)
    (h6 : a.attester_bitfield.num_bytes = bytes_for_bits ind.length)
    (h7 : a.attester_bitfield.len ≤ ind.length)
    (h8 : ctx.block_exists a.justified_block_hash = Except.ok true)
    (h9 : ext.attestation_parent_hashes ctx.cycle_length ctx.block_slot
      a.slot ctx.parent_hashes a.oblique_parent_hashes = Except.ok ph) :
    ((validate_attestation ctx ext a =
        Except.error AttestationValidationError.BadAggregateSignature)
      ↔ ext.verify_aggregate_signature_for_indices
          (ext.generate_signed_message a.slot ph a.shard_id
            a.shard_block_hash a.justified_slot)
          a.aggregate_sig ind a.attester_bitfield = Except.ok none)
    ∧ ∀ s : Finset Nat,
      (validate_attestation ctx ext a = Except.ok s)
        ↔ ext.verify_aggregate_signature_for_indices
            (ext.generate_signed_message a.slot ph a.shard_id
              a.shard_block_hash a.justified_slot)
            a.aggregate_sig ind a.attester_bitfield =
          Except.ok (some s) := by
  rw [validate_attestation_with_committee ctx ext a ind h1 h2 h3 h4 h5]
  simp only [if_neg (not_not_intro h6),
    if_neg (by omega : ¬ a.attester_bitfield.len > ind.length), h8, h9]
  cases hv : ext.verify_aggregate_signature_for_indices
      (ext.generate_signed_message a.slot ph a.shard_id
        a.shard_block_hash a.justified_slot)
      a.aggregate_sig ind a.attester_bitfield with
  | error e =>
    simp only [hv]
    constructor
    · cases e <;> simp [fromSignatureVerificationError]
    · intro s
      simp
  | ok o =>
    cases o with
    | none => simp [hv]
    | some t => simp [hv]

/-- A record passing every structural check against `sampleCtx`: slot in
window, justified slot agreed, no oblique hashes, one-byte three-bit
bitfield for the three-member committee. -/
def validRecord : AttestationRecord where
  slot := 5
  shard_id := 0
  justified_slot := 5
  justified_block_hash := 0
  oblique_parent_hashes := []
  attester_bitfield := { num_bytes := 1, len := 3 }
  aggregate_sig := 0
  shard_block_hash := 0

/-- Witness for C6: against `sampleCtx` and `okCollab` (whose verifier
confirms the empty voter set), `validRecord` validates to `Ok` of the
empty set — not to `BadAggregateSignature`. -/
theorem validate_attestation_signature_outcome_witness :
    validate_attestation sampleCtx okCollab validRecord =
      Except.ok (∅ : Finset Nat) :=
  ((validate_attestation_signature_outcome sampleCtx okCollab validRecord
    [3, 7, 9] [] (by decide) (by decide) (by decide) (by decide) rfl
    (by decide) (by decide) rfl rfl).2 ∅).mpr rfl

/-- Claim C7: the translation of collaborator errors into
`AttestationValidationError` is total with exactly one core variant per
foreign variant: the five `ParentHashesError` variants map to their
namesakes, a store `DBError` carries its message string through unchanged,
and the four `SignatureVerificationError` variants map to
`BadAttesterMap`, `PublicKeyCorrupt`, `NoPublicKeyForValidator` and
`DBError` with the message preserved.  Totality holds by construction:
each `from…` function is a total Lean function covering every
constructor. -/
theorem error_translation_exact :
    fromParentHashesError ParentHashesError.BadCurrentHashes =
      AttestationValidationError.BadCurrentHashes
    ∧ fromParentHashesError ParentHashesError.BadObliqueHashes =
      AttestationValidationError.BadObliqueHashes
    ∧ fromParentHashesError ParentHashesError.SlotTooLow =
      AttestationValidationError.SlotTooLow
    ∧ fromParentHashesError ParentHashesError.SlotTooHigh =
      AttestationValidationError.SlotTooHigh
    ∧ fromParentHashesError ParentHashesError.IntWrapping =
      AttestationValidationError.IntWrapping
    ∧ (∀ s : String,
      fromDBError { message := s } = AttestationValidationError.DBError s)
    ∧ fromSignatureVerificationError
        SignatureVerificationError.BadValidatorIndex =
      AttestationValidationError.BadAttesterMap
    ∧ fromSignatureVerificationError
        SignatureVerificationError.PublicKeyCorrupt =
      AttestationValidationError.PublicKeyCorrupt
    ∧ fromSignatureVerificationError
        SignatureVerificationError.NoPublicKeyForValidator =
      AttestationValidationError.NoPublicKeyForValidator
    ∧ ∀ s : String,
      fromSignatureVerificationError (SignatureVerificationError.DBError s) =
        AttestationValidationError.DBError s :=
  ⟨rfl, rfl, rfl, rfl, rfl, fun _ => rfl, rfl, rfl, rfl, fun _ => rfl⟩

/-- Claim C8: `validate_attestation` is deterministic: two runs in which
the external collaborators (attester map, block store, parent-hash
resolver, message builder, signature verifier) give the same answers and
the chain-state snapshots agree field by field produce identical results.
(The record and context are never mutated: the embedding is a pure
function of them, mirroring the `&self`/`&a` shared borrows in the
source.) -/
theorem validate_attestation_deterministic
    (ctx1 ctx2 : AttestationValidationContext) (ext1 ext2 : Collaborators)
    (a : AttestationRecord)
    (hbs : ctx1.block_slot = ctx2.block_slot)
    (hcl : ctx1.cycle_length = ctx2.cycle_length)
    (hlj : ctx1.last_justified_slot = ctx2.last_justified_slot)
    (hph : ctx1.parent_hashes = ctx2.parent_hashes)
    (hbe : ∀ h : Hash256, ctx1.block_exists h = ctx2.block_exists h)
    (ham : ∀ k : Nat × Nat, ctx1.attester_map k = ctx2.attester_map k)
    (hap : ∀ c b s p o, ext1.attestation_parent_hashes c b s p o =
      ext2.attestation_parent_hashes c b s p o)
    (hgen : ∀ s p sh bh j, ext1.generate_signed_message s p sh bh j =
      ext2.generate_signed_message s p sh bh j)
    (hver : ∀ m g i bf, ext1.verify_aggregate_signature_for_indices m g i bf =
      ext2.verify_aggregate_signature_for_indices m g i bf) :
    validate_attestation ctx1 ext1 a = validate_attestation ctx2 ext2 a := by
  unfold validate_attestation
  simp only [hbs, hcl, hlj, hph, hbe, ham, hap, hgen, hver]

/-- Witness for C8: applying the determinism theorem at `sampleCtx`,
`okCollab` and `validRecord`, with every pointwise-agreement hypothesis
discharged by reflexivity. -/
theorem validate_attestation_deterministic_witness :
    validate_attestation sampleCtx okCollab validRecord =
      validate_attestation sampleCtx okCollab validRecord :=
  validate_attestation_deterministic sampleCtx sampleCtx okCollab okCollab
    validRecord rfl rfl rfl rfl (fun _ => rfl) (fun _ => rfl)
    (fun _ _ _ _ _ => rfl) (fun _ _ _ _ _ => rfl) (fun _ _ _ _ => rfl)

/-- The three error variants declared in `AttestationValidationError` but
never produced by `validate_attestation`. -/
def isPhantomVariant : AttestationValidationError → Bool
  | AttestationValidationError.NonZeroTrailingBits => true
  | AttestationValidationError.InvalidBitfield => true
  | AttestationValidationError.NoSignatures => true
  | _ => false

/-- Whether a validation result carries one of the three phantom error
variants. -/
def resultHitsPhantom :
    Except AttestationValidationError (Finset Nat) → Bool
  | Except.error e => isPhantomVariant e
  | Except.ok _ => false

/-- Claim C9: for every context, record, and behaviour of the external
collaborators (which can only fail with their own declared error
variants), `validate_attestation` never returns `NonZeroTrailingBits`,
`InvalidBitfield`, or `NoSignatures`, even though all three are declared
in the error enum. -/
theorem validate_attestation_no_phantom_errors
    (ctx : AttestationValidationContext) (ext : Collaborators)
    (a : AttestationRecord) :
    resultHitsPhantom (validate_attestation ctx ext a) = false := by
  unfold validate_attestation
  dsimp only
  repeat' split
  all_goals
    first
      | rfl
      | (rename_i e heq; clear heq; cases e <;> rfl)

/-- Claim C10: `bytes_for_bits 0 = 1` (not 0) while
`bytes_for_bits n = ⌈n / 8⌉` for all `n ≥ 1`, so a record whose committee
is empty and whose bitfield has 0 bytes is rejected with
`BadBitfieldLength` at the byte-length check. -/
theorem bytes_for_bits_zero_edge :
    bytes_for_bits 0 = 1
    ∧ (∀ n : Nat, 1 ≤ n → bytes_for_bits n = (n + 7) / 8)
    ∧ ∀ (ctx : AttestationValidationContext) (ext : Collaborators)
        (a : AttestationRecord),
        a.slot ≤ ctx.block_slot →
        ctx.block_slot - (ctx.cycle_length + 1) ≤ a.slot →
        a.justified_slot = ctx.last_justified_slot →
        a.oblique_parent_hashes.length ≤ ctx.cycle_length →
        ctx.attester_map (a.slot, a.shard_id) = some [] →
        a.attester_bitfield.num_bytes = 0 →
        validate_attestation ctx ext a =
          Except.error AttestationValidationError.BadBitfieldLength := by
  refine ⟨rfl, bytes_for_bits_eq_ceil, ?_⟩
  intro ctx ext a h1 h2 h3 h4 h5 h6
  rw [validate_attestation_with_committee ctx ext a [] h1 h2 h3 h4 h5]
  rw [if_pos (by rw [h6]; decide)]

/-- A second record with a zero-byte bitfield, at a different slot and
shard than `zeroBitfieldRecord`. -/
def zeroBitfieldRecordB : AttestationRecord where
  slot := 7
  shard_id := 1
  justified_slot := 5
  justified_block_hash := 0
  oblique_parent_hashes := []
  attester_bitfield := { num_bytes := 0, len := 0 }
  aggregate_sig := 0
  shard_block_hash := 0

/-- Witness for C10: an empty committee with a zero-byte bitfield is
rejected with `BadBitfieldLength` (the required byte length is 1, not
0). -/
theorem bytes_for_bits_zero_edge_witness :
    validate_attestation emptyCommitteeCtx okCollab zeroBitfieldRecordB =
      Except.error AttestationValidationError.BadBitfieldLength :=
  bytes_for_bits_zero_edge.2.2 emptyCommitteeCtx okCollab
    zeroBitfieldRecordB (by decide) (by decide) (by decide) (by decide)
    rfl (by decide)
